import Mathlib

/-!
Verification of the multi-tenant OAuth 2.0 authorization server
(api/models.py, api/oauth2.py, api/auth_routes.py, api/tenant_context.py,
api/tenant_routes.py).

The Python source is shallowly embedded: ORM rows become Lean structures,
table queries become list searches over explicit stores, and the SQLAlchemy
session discipline (add / flush / commit / rollback) is made explicit where a
claim depends on it.  Wall-clock reads (time.time()) are passed in as an
explicit integer parameter.  A request handler that can raise an unhandled
Python exception is embedded as an Option-valued function, with none for the
crash.
-/

namespace Srv

/-- Werkzeug password hashing, abstracted: generate_password_hash produces a
tagged digest of the password and check_password_hash compares a stored digest
against the digest of a candidate password.  The cryptographic details are
irrelevant to the claims below; only the round trip matters. -/
def generate_password_hash (password : String) : String :=
  "pbkdf2-sha256$" ++ password

/-- Werkzeug check_password_hash, matching the abstraction above. -/
def check_password_hash (stored password : String) : Bool :=
  stored == generate_password_hash password

/-- Accumulator loop behind pySplit: walk the characters, flushing the word
collected so far (held reversed in acc) at each whitespace run. -/
def pySplitAux : List Char → List Char → List String
  | [], acc => if acc.isEmpty then [] else [String.mk acc.reverse]
  | c :: rest, acc =>
    if c.isWhitespace then
      if acc.isEmpty then pySplitAux rest []
      else String.mk acc.reverse :: pySplitAux rest []
    else pySplitAux rest (c :: acc)

/-- Python str.split() with no argument: split on runs of whitespace and drop
empty pieces.  Used by the source for space-separated scope strings and URI
lists. -/
def pySplit (s : String) : List String :=
  pySplitAux s.toList []

/-- Tenant row (models.py class Tenant). -/
structure Tenant where
  id : Nat
  name : String
  slug : String
  domain : Option String
  is_active : Bool
  plan : String
  max_users : Nat
deriving Repr, DecidableEq

/-- User row (models.py class User).  created_at holds the isoformat string
of the creation timestamp, as rendered by the endpoints. -/
structure User where
  id : Nat
  tenant_id : Nat
  username : String
  email : String
  password_hash : String
  role : String
  created_at : Option String
  is_active : Bool
deriving Repr, DecidableEq

/-- User.check_password from models.py. -/
def User.check_password (u : User) (password : String) : Bool :=
  check_password_hash u.password_hash password

/-- The query User.query.filter_by(tenant_id=..., username=...).first() used
by the login endpoint (auth_routes.py) and by
PasswordGrant.authenticate_user (oauth2.py): first user row matching both the
tenant id and the username. -/
def findUserInTenant (users : List User) (tid : Nat) (uname : String) : Option User :=
  users.find? (fun u => u.tenant_id == tid && u.username == uname)

/-- The query User.query.get(uid): lookup by primary key. -/
def getUserById (users : List User) (uid : Nat) : Option User :=
  users.find? (fun u => u.id == uid)

/-- validate_tenant_access from tenant_context.py. -/
def validate_tenant_access (user : Option User) (tenant : Option Tenant) : Bool :=
  match user, tenant with
  | some u, some t => u.tenant_id == t.id
  | _, _ => false

/-- Outcome of the login endpoint after tenant resolution and credential
presence checks (auth_routes.py lines 200 to 229). -/
inductive LoginResult where
  | invalidCredentials
  | inactiveAccount
  | accessDenied
  | success (user : User)
deriving Repr, DecidableEq

/-- The login endpoint body from auth_routes.py, starting at the user lookup:
find the user by (tenant id, username), check the password, check the active
flag, then validate tenant access. -/
def login (users : List User) (tenant : Tenant) (username password : String) : LoginResult :=
  match findUserInTenant users tenant.id username with
  | none => .invalidCredentials
  | some user =>
    if !(user.check_password password) then .invalidCredentials
    else if !user.is_active then .inactiveAccount
    else if !(validate_tenant_access (some user) (some tenant)) then .accessDenied
    else .success user

/-- PasswordGrant.authenticate_user from oauth2.py: requires a tenant
context, finds the user by (tenant id, username), and returns it only when
the password matches and the account is active. -/
def PasswordGrant.authenticate_user (users : List User) (tenant : Option Tenant)
    (username password : String) : Option User :=
  match tenant with
  | none => none
  | some t =>
    match findUserInTenant users t.id username with
    | some user =>
      if user.check_password password && user.is_active then some user else none
    | none => none

/-- OAuth2Client row (models.py class OAuth2Client).  The scope column is the
space-separated allowed-scope string; every client created through
create_oauth_client receives a string value here. -/
structure OAuth2Client where
  id : Nat
  tenant_id : Nat
  client_id : String
  client_secret : Option String
  client_name : String
  redirect_uris : Option String
  token_endpoint_auth_method : String
  grant_types : Option String
  response_types : Option String
  scope : String
  user_id : Option Nat
deriving Repr, DecidableEq

/-- OAuth2Client.get_allowed_scope from models.py: empty request gives the
empty string; otherwise keep, in request order, exactly the requested tokens
that occur in the set built from the client scope string, and rejoin them
with single spaces. -/
def OAuth2Client.get_allowed_scope (c : OAuth2Client) (scope : String) : String :=
  if scope = "" then ""
  else
    let allowed := pySplit c.scope
    String.intercalate " " ((pySplit scope).filter (fun s => allowed.contains s))

/-- Example fixture: tenant Acme, id 1. -/
def tenantA : Tenant :=
  { id := 1, name := "Acme", slug := "acme", domain := none,
    is_active := true, plan := "free", max_users := 10 }

/-- Example fixture: tenant Beta, id 2. -/
def tenantB : Tenant :=
  { id := 2, name := "Beta", slug := "beta", domain := none,
    is_active := true, plan := "free", max_users := 10 }

/-- Example fixture: user john in tenant Acme. -/
def userA : User :=
  { id := 1, tenant_id := 1, username := "john", email := "john@acme.com",
    password_hash := generate_password_hash "pw1", role := "user",
    created_at := none, is_active := true }

/-- Example fixture: user also named john, but in tenant Beta. -/
def userB : User :=
  { id := 2, tenant_id := 2, username := "john", email := "john@beta.com",
    password_hash := generate_password_hash "pw2", role := "user",
    created_at := none, is_active := true }

/-- Example fixture: a client whose allowed scope is read write. -/
def clientRW : OAuth2Client :=
  { id := 1, tenant_id := 1, client_id := "cid1", client_secret := some "sec",
    client_name := "demo", redirect_uris := some "http://localhost:3000/callback",
    token_endpoint_auth_method := "client_secret_basic",
    grant_types := some "authorization_code refresh_token",
    response_types := some "code", scope := "read write", user_id := some 1 }

/-- OAuth2AuthorizationCode row (models.py class OAuth2AuthorizationCode). -/
structure OAuth2AuthorizationCode where
  id : Nat
  tenant_id : Nat
  user_id : Option Nat
  code : String
  client_id : String
  redirect_uri : String
  scope : String
  nonce : Option String
  auth_time : Int
  code_challenge : Option String
  code_challenge_method : Option String
deriving Repr, DecidableEq

/-- OAuth2AuthorizationCode.is_expired from models.py: the code is expired
once auth_time plus 600 is strictly below the current time. -/
def OAuth2AuthorizationCode.is_expired (ac : OAuth2AuthorizationCode) (now : Int) : Bool :=
  decide (ac.auth_time + 600 < now)

/-- AuthorizationCodeGrant.query_authorization_code from oauth2.py: first row
matching both the code value and the requesting client, returned only when it
has not expired. -/
def query_authorization_code (codes : List OAuth2AuthorizationCode) (now : Int)
    (code : String) (client_id : String) : Option OAuth2AuthorizationCode :=
  match codes.find? (fun a => a.code == code && a.client_id == client_id) with
  | some auth_code => if !(auth_code.is_expired now) then some auth_code else none
  | none => none

/-- AuthorizationCodeGrant.delete_authorization_code from oauth2.py:
db.session.delete removes the row with the primary key of the given code. -/
def delete_authorization_code (codes : List OAuth2AuthorizationCode)
    (auth_code : OAuth2AuthorizationCode) : List OAuth2AuthorizationCode :=
  codes.filter (fun a => a.id != auth_code.id)

/-- Token-endpoint processing of an authorization_code grant, restricted to
its store effects.  Authlib first calls query_authorization_code and raises
invalid_grant when it yields nothing; the validations between lookup and
issuance (redirect_uri, PKCE) can only fail the request without writing to
the store; on success authlib calls delete_authorization_code and issues the
token pair.  The result pairs the consumed code with the updated store. -/
def exchange_authorization_code (codes : List OAuth2AuthorizationCode) (now : Int)
    (code : String) (client_id : String) :
    Except String (OAuth2AuthorizationCode × List OAuth2AuthorizationCode) :=
  match query_authorization_code codes now code client_id with
  | none => Except.error "invalid_grant"
  | some auth_code => Except.ok (auth_code, delete_authorization_code codes auth_code)

/-- Example fixture: an authorization code issued at time 1000. -/
def codeX : OAuth2AuthorizationCode :=
  { id := 1, tenant_id := 1, user_id := some 1, code := "abc", client_id := "cid1",
    redirect_uri := "http://localhost:3000/callback", scope := "read",
    nonce := none, auth_time := 1000, code_challenge := none,
    code_challenge_method := none }

/-- OAuth2Token row (models.py class OAuth2Token).  tenant_id is kept
optional because save_token can construct the row with a missing tenant
context; user_id is null for client-credentials tokens. -/
structure OAuth2Token where
  id : Nat
  tenant_id : Option Nat
  user_id : Option Nat
  client_id : String
  token_type : String
  access_token : String
  refresh_token : Option String
  scope : String
  revoked : Bool
  issued_at : Int
  access_token_expires_at : Int
  refresh_token_expires_at : Option Int
deriving Repr, DecidableEq

/-- OAuth2Token.is_expired from models.py: the access half is expired once
its expiry timestamp is strictly below the current time. -/
def OAuth2Token.is_expired (t : OAuth2Token) (now : Int) : Bool :=
  decide (t.access_token_expires_at < now)

/-- OAuth2Token.is_refresh_token_expired from models.py.  The Python guard
is a truthiness test, so a missing expiry, and also the falsy timestamp 0,
reports the refresh half as expired. -/
def OAuth2Token.is_refresh_token_expired (t : OAuth2Token) (now : Int) : Bool :=
  match t.refresh_token_expires_at with
  | some e => if e == 0 then true else decide (e < now)
  | none => true

/-- RefreshTokenGrant.authenticate_refresh_token from oauth2.py: first row
whose refresh_token column equals the presented value, returned only when
the refresh half is unexpired and the row is not revoked. -/
def authenticate_refresh_token (tokens : List OAuth2Token) (now : Int)
    (refresh_token : String) : Option OAuth2Token :=
  match tokens.find? (fun t => t.refresh_token == some refresh_token) with
  | some token =>
    if !(token.is_refresh_token_expired now) && !token.revoked then some token else none
  | none => none

/-- RefreshTokenGrant.revoke_old_credential from oauth2.py: set revoked to
true on the row with the primary key of the old credential and commit. -/
def revoke_old_credential (tokens : List OAuth2Token) (credential : OAuth2Token) :
    List OAuth2Token :=
  tokens.map (fun t => if t.id == credential.id then { t with revoked := true } else t)

/-- Token-endpoint processing of a refresh_token grant, restricted to its
store effects.  Authlib raises invalid_grant when
authenticate_refresh_token yields nothing; on success it saves the freshly
generated pair through save_token and calls revoke_old_credential on the old
row.  new_token stands for the appended row, whose refresh_token is a fresh
random value. -/
def refresh_token_exchange (tokens : List OAuth2Token) (now : Int)
    (refresh_token : String) (new_token : OAuth2Token) : Except String (List OAuth2Token) :=
  match authenticate_refresh_token tokens now refresh_token with
  | none => Except.error "invalid_grant"
  | some credential => Except.ok (revoke_old_credential tokens credential ++ [new_token])

/-- Modelled from the spec: the revocation endpoint is produced by the
authlib helper create_revocation_endpoint (library code, not in this
repository).  Per the spec it accepts any token string, marks the matching
row revoked, and always responds 200; the row matches when the string equals
either its access or its refresh token. -/
def revoke_token_endpoint (tokens : List OAuth2Token) (token_string : String) :
    List OAuth2Token :=
  tokens.map (fun t =>
    if t.access_token == token_string || t.refresh_token == some token_string then
      { t with revoked := true }
    else t)

/-- JSON body answered by the introspection endpoint. -/
inductive IntrospectResponse where
  | inactive
  | active (client_id : String) (username : Option String) (scope : String)
      (exp : Int) (iat : Int) (token_type : String)
deriving Repr, DecidableEq

/-- The introspection endpoint from auth_routes.py, paired with its HTTP
status.  A missing or empty form token, an unknown token string, an expired
token, and a revoked token all yield status 200 with active false; otherwise
the token metadata is returned with active true, the username being null
when the token has no user.  The value none embeds the unhandled
AttributeError (an HTTP 500) raised when the token references a user id
absent from the user table; the cascade on the user foreign key keeps that
state unreachable. -/
def introspect_token (tokens : List OAuth2Token) (users : List User) (now : Int)
    (form_token : Option String) : Option (Nat × IntrospectResponse) :=
  match form_token with
  | none => some (200, IntrospectResponse.inactive)
  | some ts =>
    if ts = "" then some (200, IntrospectResponse.inactive)
    else
      match tokens.find? (fun t => t.access_token == ts) with
      | none => some (200, IntrospectResponse.inactive)
      | some token =>
        if token.is_expired now || token.revoked then
          some (200, IntrospectResponse.inactive)
        else
          match token.user_id with
          | none =>
            some (200, IntrospectResponse.active token.client_id none token.scope
              token.access_token_expires_at token.issued_at token.token_type)
          | some uid =>
            match getUserById users uid with
            | none => none
            | some u =>
              some (200, IntrospectResponse.active token.client_id (some u.username)
                token.scope token.access_token_expires_at token.issued_at token.token_type)

/-- Token dictionary handed to save_token by authlib. -/
structure AuthlibToken where
  access_token : String
  refresh_token : Option String
  token_type : Option String
  expires_in : Option Int
  scope : Option String
deriving Repr, DecidableEq

/-- save_token from oauth2.py.  The tenant id comes from the context or, when
absent, from the user; expires_in defaults to 3600; when the token dict
carries a (truthy, that is nonempty) refresh token, the refresh lifetime is
read through client.get_allowed_scope, whose string result is falsy unless
the client scope contains the literal token refresh_token_expires_in, in
which case the Python code would add an int to a str and raise TypeError
(embedded as none, nothing saved); the falsy branch uses 2592000 seconds.
Both wall-clock reads inside the function happen in one request and are
modelled as the single instant now, which also becomes issued_at through the
column default. -/
def save_token (client : OAuth2Client) (user : Option User) (ctx_tenant_id : Option Nat)
    (now : Int) (new_id : Nat) (token : AuthlibToken) : Option OAuth2Token :=
  let tenant_id : Option Nat :=
    match ctx_tenant_id with
    | some tid => some tid
    | none => user.map (fun u => u.tenant_id)
  let expires_in := token.expires_in.getD 3600
  let has_refresh : Bool :=
    match token.refresh_token with
    | some r => r ≠ ""
    | none => false
  let refresh_result : Option (Option Int) :=
    if has_refresh then
      let refresh_expires_in := client.get_allowed_scope "refresh_token_expires_in"
      if refresh_expires_in ≠ "" then none
      else some (some (now + 2592000))
    else some none
  match refresh_result with
  | none => none
  | some refresh_token_expires_at =>
    some {
      id := new_id
      tenant_id := tenant_id
      user_id := user.map (fun u => u.id)
      client_id := client.client_id
      token_type := token.token_type.getD "Bearer"
      access_token := token.access_token
      refresh_token := token.refresh_token
      scope := token.scope.getD ""
      revoked := false
      issued_at := now
      access_token_expires_at := now + expires_in
      refresh_token_expires_at := refresh_token_expires_at }

/-- Example fixture: a live token pair held by user john, refresh value r1. -/
def tokenOld : OAuth2Token :=
  { id := 1, tenant_id := some 1, user_id := some 1, client_id := "cid1",
    token_type := "Bearer", access_token := "at1", refresh_token := some "r1",
    scope := "read write", revoked := false, issued_at := 1000,
    access_token_expires_at := 4600, refresh_token_expires_at := some 2593000 }

/-- Example fixture: the rotated replacement pair, refresh value r2. -/
def tokenNew : OAuth2Token :=
  { id := 2, tenant_id := some 1, user_id := some 1, client_id := "cid1",
    token_type := "Bearer", access_token := "at2", refresh_token := some "r2",
    scope := "read write", revoked := false, issued_at := 2000,
    access_token_expires_at := 5600, refresh_token_expires_at := some 2594000 }

/-- Example fixture: a client-credentials token with no user. -/
def tokenCC : OAuth2Token :=
  { id := 3, tenant_id := some 1, user_id := none, client_id := "cid1",
    token_type := "Bearer", access_token := "at3", refresh_token := none,
    scope := "read", revoked := false, issued_at := 1000,
    access_token_expires_at := 4600, refresh_token_expires_at := none }

/-- Example fixture: authlib token dictionary for a password grant carrying
a refresh token and no explicit expires_in. -/
def authlibTokenEx : AuthlibToken :=
  { access_token := "at9", refresh_token := some "r9", token_type := none,
    expires_in := none, scope := some "read" }

/-- Example fixture: the row save_token persists for authlibTokenEx at
instant 1000 under clientRW and userA. -/
def savedRowEx : OAuth2Token :=
  { id := 10, tenant_id := some 1, user_id := some 1, client_id := "cid1",
    token_type := "Bearer", access_token := "at9", refresh_token := some "r9",
    scope := "read", revoked := false, issued_at := 1000,
    access_token_expires_at := 4600, refresh_token_expires_at := some 2593000 }

/-- Python substring membership, needle in hay, over the character lists. -/
def pyInStr (needle hay : String) : Bool :=
  (List.range (hay.toList.length + 1)).any
    (fun i => needle.toList.isPrefixOf (hay.toList.drop i))

/-- JSON body of the userinfo endpoint.  A none field is omitted from the
response; created_at, when present, carries the isoformat creation
timestamp or null. -/
structure UserinfoResponse where
  sub : String
  username : String
  email : Option String
  created_at : Option (Option String)
deriving Repr, DecidableEq

/-- Outcome of the userinfo endpoint after bearer validation. -/
inductive UserinfoResult where
  | notFound
  | ok (body : UserinfoResponse)
deriving Repr, DecidableEq

/-- The userinfo endpoint from auth_routes.py, after the resource protector
has validated the bearer token: look up the token user (a 404 when absent),
always emit sub and username, emit email when the scope string is truthy and
the Python expression, quote, email in token.scope, holds — a substring
test on the raw scope string, not a membership test over its space-separated
tokens — and emit created_at under the analogous substring test for
profile. -/
def userinfo_endpoint (users : List User) (token : OAuth2Token) : UserinfoResult :=
  match token.user_id.bind (fun uid => getUserById users uid) with
  | none => UserinfoResult.notFound
  | some user =>
    UserinfoResult.ok {
      sub := toString user.id
      username := user.username
      email :=
        if token.scope ≠ "" && pyInStr "email" token.scope then some user.email else none
      created_at :=
        if token.scope ≠ "" && pyInStr "profile" token.scope then some user.created_at
        else none }

/-- Example fixture: user eve with a creation timestamp. -/
def userEve : User :=
  { id := 7, tenant_id := 1, username := "eve", email := "eve@acme.com",
    password_hash := generate_password_hash "pw", role := "user",
    created_at := some "2024-01-01T00:00:00", is_active := true }

/-- Example fixture: a live token whose single granted scope token is the
string emailer, which contains email as a substring. -/
def tokenEmailer : OAuth2Token :=
  { id := 8, tenant_id := some 1, user_id := some 7, client_id := "cid1",
    token_type := "Bearer", access_token := "atE", refresh_token := none,
    scope := "emailer", revoked := false, issued_at := 0,
    access_token_expires_at := 99999, refresh_token_expires_at := none }

/-- Example fixture: a live token granted the email and profile scopes. -/
def tokenEmailProfile : OAuth2Token :=
  { id := 9, tenant_id := some 1, user_id := some 7, client_id := "cid1",
    token_type := "Bearer", access_token := "atF", refresh_token := none,
    scope := "email profile", revoked := false, issued_at := 0,
    access_token_expires_at := 99999, refresh_token_expires_at := none }

/-- Input fields of the tenant registration endpoint. -/
structure TenantRegistrationInput where
  tenant_name : String
  tenant_slug : String
  admin_username : String
  admin_email : String
  admin_password : String
  domain : Option String
  plan : String
deriving Repr, DecidableEq

/-- Committed contents of the store, restricted to the two tables tenant
registration writes. -/
structure StoreState where
  tenants : List Tenant
  users : List User
deriving Repr, DecidableEq

/-- Failure injection points of the create_tenant transaction: the flush
inserting the tenant row can raise, and the insert of the owner row or the
final commit can raise. -/
inductive TxnFail where
  | noFail
  | tenantInsertFails
  | ownerInsertFails
deriving Repr, DecidableEq

/-- The Tenant(...) row built by create_tenant in tenant_context.py, its id
assigned by the flush. -/
def mint_tenant_row (inp : TenantRegistrationInput) (tenant_id : Nat) : Tenant :=
  { id := tenant_id, name := inp.tenant_name, slug := inp.tenant_slug,
    domain := inp.domain, is_active := true, plan := inp.plan, max_users := 10 }

/-- The owner User(...) row built by create_tenant, bound to the flushed
tenant id and given role owner. -/
def mint_owner_row (inp : TenantRegistrationInput) (tenant_id user_id : Nat) : User :=
  { id := user_id, tenant_id := tenant_id, username := inp.admin_username,
    email := inp.admin_email,
    password_hash := generate_password_hash inp.admin_password,
    role := "owner", created_at := none, is_active := true }

/-- create_tenant from tenant_context.py under SQLAlchemy session
semantics: rows added to the session become durable only at the single
commit at the end; the flush after adding the tenant assigns its id without
committing.  A failure at either injection point raises, so nothing reaches
the committed store; on success the commit persists both rows together. -/
def create_tenant (db : StoreState) (inp : TenantRegistrationInput)
    (tenant_id user_id : Nat) (fail : TxnFail) : Option (StoreState × Tenant × User) :=
  let tenant := mint_tenant_row inp tenant_id
  if fail = TxnFail.tenantInsertFails then none
  else
    let admin_user := mint_owner_row inp tenant.id user_id
    if fail = TxnFail.ownerInsertFails then none
    else
      some ({ tenants := db.tenants ++ [tenant], users := db.users ++ [admin_user] },
        tenant, admin_user)

/-- HTTP outcome of the registration endpoint from the create_tenant call
on. -/
inductive RegisterTenantResult where
  | created (tenant : Tenant) (admin : User)
  | failed
deriving Repr, DecidableEq

/-- register_tenant from tenant_routes.py, from the call to create_tenant
on: a raised exception is caught, db.session.rollback() discards the
pending rows and a 500 is returned with the committed store untouched; on
success the 201 body carries the new tenant and its admin. -/
def register_tenant (db : StoreState) (inp : TenantRegistrationInput)
    (tenant_id user_id : Nat) (fail : TxnFail) : StoreState × RegisterTenantResult :=
  match create_tenant db inp tenant_id user_id fail with
  | some (db2, tenant, admin_user) => (db2, RegisterTenantResult.created tenant admin_user)
  | none => (db, RegisterTenantResult.failed)

/-- Example fixture: the registration payload of the spec scenario. -/
def regInputEx : TenantRegistrationInput :=
  { tenant_name := "Acme", tenant_slug := "acme", admin_username := "admin",
    admin_email := "admin@acme.com", admin_password := "pw123456",
    domain := none, plan := "premium" }

/-- Header, host and path fields of an inbound request, as read by
TenantContext.identify_tenant. -/
structure HttpRequest where
  header_tenant_slug : Option String
  header_tenant_id : Option String
  host : String
  path : String
deriving Repr, DecidableEq

/-- Accumulator loop behind pySplitOnChar. -/
def pySplitOnCharAux (sep : Char) : List Char → List Char → List String
  | [], acc => [String.mk acc.reverse]
  | c :: rest, acc =>
    if c = sep then String.mk acc.reverse :: pySplitOnCharAux sep rest []
    else pySplitOnCharAux sep rest (c :: acc)

/-- Python str.split(sep) with a one-character separator: every occurrence
splits, empty pieces are kept, and the result is never empty. -/
def pySplitOnChar (s : String) (sep : Char) : List String :=
  pySplitOnCharAux sep s.toList []

/-- Python str.strip(): drop leading and trailing whitespace. -/
def pyStrip (s : String) : String :=
  String.mk (((s.toList.dropWhile Char.isWhitespace).reverse.dropWhile
    Char.isWhitespace).reverse)

/-- Base ten parse of a digits-only character list. -/
def pyDigits? (cs : List Char) : Option Nat :=
  if cs.isEmpty then none
  else if cs.all Char.isDigit then
    some (cs.foldl (fun n c => 10 * n + (c.toNat - 48)) 0)
  else none

/-- Python int() on a decimal string: optional surrounding whitespace, an
optional sign, then digits; anything else raises ValueError, embedded as
none.  Exotic accepted spellings (digit-group underscores, non-ascii
digits) are not modelled. -/
def pyInt (s : String) : Option Int :=
  match (pyStrip s).toList with
  | '-' :: rest => (pyDigits? rest).map (fun n => -(n : Int))
  | '+' :: rest => (pyDigits? rest).map (fun n => (n : Int))
  | t => (pyDigits? t).map (fun n => (n : Int))

/-- The query Tenant.query.filter_by(slug=..., is_active=True).first(). -/
def find_active_tenant_by_slug (tenants : List Tenant) (slug : String) : Option Tenant :=
  tenants.find? (fun t => t.slug == slug && t.is_active)

/-- The query Tenant.query.filter_by(id=..., is_active=True).first(). -/
def find_active_tenant_by_id (tenants : List Tenant) (i : Int) : Option Tenant :=
  tenants.find? (fun t => ((t.id : Int) == i) && t.is_active)

/-- The query Tenant.query.filter_by(domain=..., is_active=True).first();
a row with a null domain never matches. -/
def find_active_tenant_by_domain (tenants : List Tenant) (host : String) : Option Tenant :=
  tenants.find? (fun t => t.domain == some host && t.is_active)

/-- Strategy 1 of identify_tenant: the X-Tenant-Slug header, when present
and truthy, looked up as a slug. -/
def strategy_slug_header (tenants : List Tenant) (req : HttpRequest) : Option Tenant :=
  match req.header_tenant_slug with
  | some s => if s ≠ "" then find_active_tenant_by_slug tenants s else none
  | none => none

/-- Strategy 2 of identify_tenant: the X-Tenant-ID header, when present and
truthy, parsed with int(); a ValueError is swallowed and yields no tenant
from this strategy. -/
def strategy_id_header (tenants : List Tenant) (req : HttpRequest) : Option Tenant :=
  match req.header_tenant_id with
  | some s =>
    if s ≠ "" then
      match pyInt s with
      | some i => find_active_tenant_by_id tenants i
      | none => none
    else none
  | none => none

/-- The expression request.host.split(colon)[0]: the host with any port
stripped. -/
def host_without_port (host : String) : String :=
  (pySplitOnChar host ':').headD host

/-- Strategy 3 of identify_tenant: split the host on dots; with at least
three labels and a leading label outside the reserved set, look the leading
label up as a slug. -/
def strategy_subdomain (tenants : List Tenant) (req : HttpRequest) : Option Tenant :=
  let host := host_without_port req.host
  let parts := pySplitOnChar host '.'
  if 3 ≤ parts.length ∧ (parts.headD "") ∉ ["www", "api", "admin"] then
    find_active_tenant_by_slug tenants (parts.headD "")
  else none

/-- Strategy 4 of identify_tenant: exact match of the (portless) host
against the custom domain column. -/
def strategy_custom_domain (tenants : List Tenant) (req : HttpRequest) : Option Tenant :=
  find_active_tenant_by_domain tenants (host_without_port req.host)

/-- Strategy 5 of identify_tenant: a path of the shape /tenants/slug/...
yields the second segment as slug. -/
def strategy_path (tenants : List Tenant) (req : HttpRequest) : Option Tenant :=
  let path_parts := pySplitOnChar req.path '/'
  if 3 ≤ path_parts.length ∧ path_parts.getD 1 "" = "tenants" then
    find_active_tenant_by_slug tenants (path_parts.getD 2 "")
  else none

/-- TenantContext.identify_tenant from tenant_context.py: try the five
strategies in order, returning at the first that produces a tenant. -/
def identify_tenant (tenants : List Tenant) (req : HttpRequest) : Option Tenant :=
  match strategy_slug_header tenants req with
  | some t => some t
  | none =>
    match strategy_id_header tenants req with
    | some t => some t
    | none =>
      match strategy_subdomain tenants req with
      | some t => some t
      | none =>
        match strategy_custom_domain tenants req with
        | some t => some t
        | none => strategy_path tenants req

/-- Example fixture: a request with a malformed numeric id header whose host
carries the acme subdomain. -/
def reqMalformedId : HttpRequest :=
  { header_tenant_slug := none, header_tenant_id := some "abc",
    host := "acme.example.com", path := "/api/data" }

theorem findUserInTenant_tenant_eq {users : List User} {tid : Nat} {uname : String}
    {u : User} (h : findUserInTenant users tid uname = some u) : u.tenant_id = tid := by
  have hp := List.find?_some h
  simp only [Bool.and_eq_true, beq_iff_eq] at hp
  exact hp.1

/-- C1: the user lookup of the login endpoint and of the password grant
authenticate_user under tenant T1 always filters by T1.id, so when either
returns a user, that user belongs to T1 and can never be a user of a distinct
tenant T2, even when both tenants contain the same username string. -/
theorem login_lookup_tenant_isolated
    (users : List User) (t1 t2 : Tenant) (u u2 : User)
    (hne : t1.id ≠ t2.id) (hu2 : u2.tenant_id = t2.id)
    (username password : String) :
    (login users t1 username password = LoginResult.success u →
      u.tenant_id = t1.id ∧ u ≠ u2) ∧
    (PasswordGrant.authenticate_user users (some t1) username password = some u →
      u.tenant_id = t1.id ∧ u ≠ u2) := by
  have key : ∀ v : User, findUserInTenant users t1.id username = some v →
      v.tenant_id = t1.id ∧ v ≠ u2 := by
    intro v hv
    have h1 : v.tenant_id = t1.id := findUserInTenant_tenant_eq hv
    refine ⟨h1, ?_⟩
    intro hcontra
    apply hne
    rw [← h1, hcontra, hu2]
  constructor
  · intro hlog
    unfold login at hlog
    cases hfind : findUserInTenant users t1.id username with
    | none => rw [hfind] at hlog; exact absurd hlog (by simp)
    | some v =>
      rw [hfind] at hlog
      have hv : v = u := by
        by_cases h1 : v.check_password password = true
        · by_cases h2 : v.is_active = true
          · by_cases h3 : validate_tenant_access (some v) (some t1) = true
            · simp [h1, h2, h3] at hlog; exact hlog
            · simp [h1, h2, h3] at hlog
          · simp [h1, h2] at hlog
        · simp [h1] at hlog
      exact hv ▸ key v hfind
  · intro hpg
    cases hfind : findUserInTenant users t1.id username with
    | none => simp [PasswordGrant.authenticate_user, hfind] at hpg
    | some v =>
      simp only [PasswordGrant.authenticate_user, hfind] at hpg
      have hv : v = u := by
        by_cases h1 : (v.check_password password && v.is_active) = true
        · simpa [h1] using hpg
        · simp [h1] at hpg
      exact hv ▸ key v hfind

/-- C1 witness: two tenants each holding a user named john; login under
tenant Acme returns the Acme user, which is distinct from the Beta user. -/
theorem login_lookup_tenant_isolated_witness :
    userA.tenant_id = tenantA.id ∧ userA ≠ userB :=
  (login_lookup_tenant_isolated [userA, userB] tenantA tenantB userA userB
    (by decide) rfl "john" "pw1").1 (by decide)

/-- C5: get_allowed_scope returns exactly the space-joined, order-preserving
subsequence of the requested scope tokens that belong to the client allowed
scope set; disallowed tokens are dropped silently, an empty request yields
the empty string, and a client allowed read write asked for read write admin
yields read write. -/
theorem get_allowed_scope_is_ordered_intersection
    (c : OAuth2Client) (requested : String) :
    c.get_allowed_scope requested =
      String.intercalate " "
        ((pySplit requested).filter (fun s => (pySplit c.scope).contains s)) ∧
    List.Sublist ((pySplit requested).filter (fun s => (pySplit c.scope).contains s))
      (pySplit requested) ∧
    (∀ s ∈ (pySplit requested).filter (fun s => (pySplit c.scope).contains s),
      s ∈ pySplit c.scope) ∧
    c.get_allowed_scope "" = "" ∧
    (c.scope = "read write" → c.get_allowed_scope "read write admin" = "read write") := by
  refine ⟨?_, List.filter_sublist _, ?_, rfl, ?_⟩
  · by_cases h : requested = ""
    · subst h
      have h0 : pySplit "" = ([] : List String) := by decide
      unfold OAuth2Client.get_allowed_scope
      rw [if_pos rfl, h0]
      rfl
    · unfold OAuth2Client.get_allowed_scope
      rw [if_neg h]
  · intro s hs
    have := (List.mem_filter.mp hs).2
    simpa using this
  · intro hscope
    unfold OAuth2Client.get_allowed_scope
    rw [if_neg (by decide : ¬("read write admin" = "")), hscope]
    decide

/-- C5 witness: evaluating the scope filter at the concrete client allowed
read write and the request read write admin. -/
theorem get_allowed_scope_is_ordered_intersection_witness :
    clientRW.get_allowed_scope "read write admin" = "read write" :=
  (get_allowed_scope_is_ordered_intersection clientRW "read write admin").2.2.2.2 rfl

theorem find?_eq_some_of_unique {α : Type} {p : α → Bool} {x : α} :
    ∀ l : List α, x ∈ l → p x = true → (∀ a ∈ l, p a = true → a = x) →
      l.find? p = some x := by
  intro l
  induction l with
  | nil => intro hx _ _; cases hx
  | cons h t ih =>
    intro hx hpx huniq
    by_cases hph : p h = true
    · simp only [List.find?, hph]
      exact congrArg some (huniq h (by simp) hph)
    · simp only [List.find?, Bool.eq_false_iff.mpr hph]
      rcases List.mem_cons.mp hx with hxh | hxt
      · exact absurd (hxh ▸ hpx) hph
      · exact ih hxt hpx (fun a ha hpa => huniq a (List.mem_cons_of_mem _ ha) hpa)

/-- C4: an authorization code more than 600 seconds past its auth_time is
reported expired and the exchange-time lookup yields nothing, while a code at
most 600 seconds old passes the expiry check and is returned by the lookup. -/
theorem authorization_code_ttl_bound
    (codes : List OAuth2AuthorizationCode) (ac : OAuth2AuthorizationCode) (now : Int)
    (hmem : ac ∈ codes)
    (huniq : ∀ a ∈ codes, a.code = ac.code → a = ac) :
    (600 < now - ac.auth_time →
      ac.is_expired now = true ∧
      query_authorization_code codes now ac.code ac.client_id = none) ∧
    (now - ac.auth_time ≤ 600 →
      ac.is_expired now = false ∧
      query_authorization_code codes now ac.code ac.client_id = some ac) := by
  have hfind : codes.find?
      (fun a => a.code == ac.code && a.client_id == ac.client_id) = some ac := by
    apply find?_eq_some_of_unique codes hmem (by simp)
    intro a ha hpa
    simp only [Bool.and_eq_true, beq_iff_eq] at hpa
    exact huniq a ha hpa.1
  constructor
  · intro h
    have hexp : ac.is_expired now = true := by
      simp only [OAuth2AuthorizationCode.is_expired, decide_eq_true_eq]
      omega
    refine ⟨hexp, ?_⟩
    unfold query_authorization_code
    rw [hfind]
    simp [hexp]
  · intro h
    have hexp : ac.is_expired now = false := by
      simp only [OAuth2AuthorizationCode.is_expired, decide_eq_false_iff_not]
      omega
    refine ⟨hexp, ?_⟩
    unfold query_authorization_code
    rw [hfind]
    simp [hexp]

/-- C4 witness: the concrete code issued at time 1000 is rejected by the
lookup at time 1601 (601 seconds old) and still returned at time 1600. -/
theorem authorization_code_ttl_bound_witness :
    (codeX.is_expired 1601 = true ∧
      query_authorization_code [codeX] 1601 codeX.code codeX.client_id = none) ∧
    (codeX.is_expired 1600 = false ∧
      query_authorization_code [codeX] 1600 codeX.code codeX.client_id = some codeX) :=
  ⟨(authorization_code_ttl_bound [codeX] codeX 1601 (by decide) (by decide)).1 (by decide),
   (authorization_code_ttl_bound [codeX] codeX 1600 (by decide) (by decide)).2 (by decide)⟩

/-- C2: once an authorization code is successfully exchanged, the code row is
deleted from the store, so any later exchange attempt presenting the same
code value finds no code and fails with invalid_grant.  The hypothesis is the
unique constraint on the code column. -/
theorem authorization_code_single_use
    (codes : List OAuth2AuthorizationCode) (now : Int) (code cid : String)
    (huniq : ∀ a ∈ codes, ∀ b ∈ codes, a.code = b.code → a.id = b.id)
    (ac : OAuth2AuthorizationCode) (rest : List OAuth2AuthorizationCode)
    (hex : exchange_authorization_code codes now code cid = Except.ok (ac, rest)) :
    ∀ (now2 : Int) (cid2 : String),
      query_authorization_code rest now2 code cid2 = none ∧
      exchange_authorization_code rest now2 code cid2 = Except.error "invalid_grant" := by
  have hq : query_authorization_code codes now code cid = some ac ∧
      rest = delete_authorization_code codes ac := by
    unfold exchange_authorization_code at hex
    cases hqq : query_authorization_code codes now code cid with
    | none => rw [hqq] at hex; exact absurd hex (by simp)
    | some a =>
      rw [hqq] at hex
      simp only [Except.ok.injEq, Prod.mk.injEq] at hex
      exact ⟨by rw [hex.1], hex.1 ▸ hex.2.symm⟩
  have hfind : codes.find? (fun a => a.code == code && a.client_id == cid) = some ac := by
    have h1 := hq.1
    unfold query_authorization_code at h1
    cases hf : codes.find? (fun a => a.code == code && a.client_id == cid) with
    | none => rw [hf] at h1; exact absurd h1 (by simp)
    | some a =>
      rw [hf] at h1
      by_cases hexp : a.is_expired now = true
      · simp [hexp] at h1
      · simp only [Bool.not_eq_true] at hexp
        simp [hexp] at h1
        rw [h1]
  have hcode : ac.code = code := by
    have hp := List.find?_some hfind
    simp only [Bool.and_eq_true, beq_iff_eq] at hp
    exact hp.1
  have hacmem : ac ∈ codes := List.mem_of_find?_eq_some hfind
  intro now2 cid2
  have hnone : rest.find? (fun a => a.code == code && a.client_id == cid2) = none := by
    rw [List.find?_eq_none]
    intro a ha hpa
    rw [hq.2] at ha
    unfold delete_authorization_code at ha
    have hmf := List.mem_filter.mp ha
    simp only [Bool.and_eq_true, beq_iff_eq] at hpa
    have hid : a.id = ac.id := huniq a hmf.1 ac hacmem (by rw [hpa.1, hcode])
    simp only [bne_iff_ne, ne_eq] at hmf
    exact hmf.2 hid
  have hqnone : query_authorization_code rest now2 code cid2 = none := by
    unfold query_authorization_code
    rw [hnone]
  refine ⟨hqnone, ?_⟩
  unfold exchange_authorization_code
  rw [hqnone]

/-- C2 witness: exchanging the concrete code once succeeds and empties the
store; the second attempt with the same code value fails with invalid_grant. -/
theorem authorization_code_single_use_witness :
    query_authorization_code [] 1200 "abc" "cid1" = none ∧
    exchange_authorization_code [] 1200 "abc" "cid1" = Except.error "invalid_grant" :=
  authorization_code_single_use [codeX] 1100 "abc" "cid1" (by decide) codeX []
    (by rfl) 1200 "cid1"

theorem authenticate_refresh_token_none_of_revoked
    (tokens : List OAuth2Token) (now : Int) (rt : String)
    (h : ∀ t ∈ tokens, t.refresh_token = some rt → t.revoked = true) :
    authenticate_refresh_token tokens now rt = none := by
  unfold authenticate_refresh_token
  cases hf : tokens.find? (fun t => t.refresh_token == some rt) with
  | none => rfl
  | some tk =>
    have hmem := List.mem_of_find?_eq_some hf
    have heq : tk.refresh_token = some rt := by simpa using List.find?_some hf
    have hrv := h tk hmem heq
    simp [hrv]

/-- C3: when the refresh token grant issues a new pair, the old row is
marked revoked, so every row carrying the old refresh value is revoked
afterwards, and a later refresh attempt presenting the old value fails with
invalid_grant because authenticate_refresh_token rejects revoked rows.  The
hypotheses are the unique constraint on the refresh_token column and the
freshness of the newly generated refresh value. -/
theorem refresh_rotation_blocks_old_token
    (tokens : List OAuth2Token) (now : Int) (rt : String) (new_token : OAuth2Token)
    (huniq : ∀ a ∈ tokens, ∀ b ∈ tokens,
      a.refresh_token = some rt → b.refresh_token = some rt → a = b)
    (hfresh : new_token.refresh_token ≠ some rt)
    (tokens2 : List OAuth2Token)
    (hex : refresh_token_exchange tokens now rt new_token = Except.ok tokens2) :
    (∀ t ∈ tokens2, t.refresh_token = some rt → t.revoked = true) ∧
    ∀ now2 : Int, authenticate_refresh_token tokens2 now2 rt = none ∧
      ∀ nt2 : OAuth2Token,
        refresh_token_exchange tokens2 now2 rt nt2 = Except.error "invalid_grant" := by
  have hcred : ∃ credential, authenticate_refresh_token tokens now rt = some credential ∧
      tokens2 = revoke_old_credential tokens credential ++ [new_token] := by
    unfold refresh_token_exchange at hex
    cases ha : authenticate_refresh_token tokens now rt with
    | none => rw [ha] at hex; exact absurd hex (by simp)
    | some credential =>
      rw [ha] at hex
      simp only [Except.ok.injEq] at hex
      exact ⟨credential, rfl, hex.symm⟩
  obtain ⟨credential, hauth, htokens2⟩ := hcred
  have hcf : credential ∈ tokens ∧ credential.refresh_token = some rt := by
    unfold authenticate_refresh_token at hauth
    cases hf : tokens.find? (fun t => t.refresh_token == some rt) with
    | none => rw [hf] at hauth; exact absurd hauth (by simp)
    | some tk =>
      rw [hf] at hauth
      by_cases hcond : (!(tk.is_refresh_token_expired now) && !tk.revoked) = true
      · simp only [hcond, if_true] at hauth
        have htk : tk = credential := by simpa using hauth
        subst htk
        exact ⟨List.mem_of_find?_eq_some hf, by simpa using List.find?_some hf⟩
      · simp [hcond] at hauth
  have part1 : ∀ t ∈ tokens2, t.refresh_token = some rt → t.revoked = true := by
    intro t ht hrt
    rw [htokens2] at ht
    rcases List.mem_append.mp ht with hmap | hnewt
    · unfold revoke_old_credential at hmap
      obtain ⟨a, ha, hfa⟩ := List.mem_map.mp hmap
      by_cases hid : (a.id == credential.id) = true
      · rw [← hfa, if_pos hid]
      · rw [if_neg hid] at hfa
        have hat : a.refresh_token = some rt := by rw [hfa]; exact hrt
        have hac : a = credential := huniq a ha credential hcf.1 hat hcf.2
        have hidne : a.id ≠ credential.id := by simpa using hid
        exact absurd (congrArg OAuth2Token.id hac) hidne
    · have hnew : t = new_token := by simpa using hnewt
      rw [hnew] at hrt
      exact absurd hrt hfresh
  refine ⟨part1, fun now2 => ⟨?_, fun nt2 => ?_⟩⟩
  · exact authenticate_refresh_token_none_of_revoked tokens2 now2 rt part1
  · unfold refresh_token_exchange
    rw [authenticate_refresh_token_none_of_revoked tokens2 now2 rt part1]

/-- C3 witness: rotating the concrete pair with refresh value r1 leaves a
store in which presenting r1 again authenticates to nothing. -/
theorem refresh_rotation_blocks_old_token_witness :
    authenticate_refresh_token
      (revoke_old_credential [tokenOld] tokenOld ++ [tokenNew]) 3000 "r1" = none :=
  ((refresh_rotation_blocks_old_token [tokenOld] 2000 "r1" tokenNew (by decide) (by decide)
    (revoke_old_credential [tokenOld] tokenOld ++ [tokenNew]) (by rfl)).2 3000).1

/-- C10: every token row that save_token actually persists has
access_token_expires_at equal to the issuance instant plus the expires_in of
the grant (3600 when the grant supplies none), and whenever a (nonempty)
refresh token is included, refresh_token_expires_at equals the issuance
instant plus 2592000 seconds. -/
theorem save_token_expirations
    (client : OAuth2Client) (user : Option User) (ctx_tenant_id : Option Nat)
    (now : Int) (new_id : Nat) (token : AuthlibToken) (row : OAuth2Token)
    (hsave : save_token client user ctx_tenant_id now new_id token = some row) :
    row.issued_at = now ∧
    row.access_token_expires_at = now + token.expires_in.getD 3600 ∧
    (token.expires_in = none → row.access_token_expires_at = now + 3600) ∧
    ∀ rt : String, row.refresh_token = some rt → rt ≠ "" →
      row.refresh_token_expires_at = some (now + 2592000) := by
  cases htr : token.refresh_token with
  | none =>
    simp only [save_token, htr] at hsave
    simp at hsave
    subst hsave
    refine ⟨rfl, rfl, fun h => by simp [h], fun rt hrt hne => ?_⟩
    simp at hrt
  | some r =>
    by_cases hre : r = ""
    · subst hre
      simp only [save_token, htr] at hsave
      simp at hsave
      subst hsave
      refine ⟨rfl, rfl, fun h => by simp [h], fun rt hrt hne => ?_⟩
      simp only [Option.some.injEq] at hrt
      exact absurd hrt.symm hne
    · by_cases hcs : client.get_allowed_scope "refresh_token_expires_in" = ""
      · simp only [save_token, htr] at hsave
        simp [hre, hcs] at hsave
        subst hsave
        exact ⟨rfl, rfl, fun h => by simp [h], fun rt hrt hne => rfl⟩
      · simp only [save_token, htr] at hsave
        simp [hre, hcs] at hsave

/-- C10 witness: for the concrete grant dictionary with a refresh token and
no explicit expires_in, the persisted row carries access expiry 1000 + 3600
and refresh expiry 1000 + 2592000. -/
theorem save_token_expirations_witness :
    savedRowEx.issued_at = 1000 ∧
    savedRowEx.access_token_expires_at = 1000 + 3600 ∧
    savedRowEx.refresh_token_expires_at = some (1000 + 2592000) := by
  have h := save_token_expirations clientRW (some userA) (some 1) 1000 10
    authlibTokenEx savedRowEx (by decide)
  exact ⟨h.1, h.2.1, h.2.2.2 "r9" rfl (by decide)⟩

/-- C7: the introspection endpoint always answers 200; it answers active
false when the form token is absent, unknown, expired, or revoked (in
particular for any token string after the revocation endpoint has run on
it), and otherwise answers active true together with client_id, username
(null when the token has no user), scope, expiry and issue timestamps.  The
hypothesis is the referential integrity that the user foreign key cascade
maintains. -/
theorem introspection_contract
    (tokens : List OAuth2Token) (users : List User) (now : Int) (form_token : Option String)
    (href : ∀ t ∈ tokens, t.user_id.all (fun uid => (getUserById users uid).isSome) = true) :
    (∃ body, introspect_token tokens users now form_token = some (200, body)) ∧
    (∀ ts, form_token = some ts →
      tokens.find? (fun t => t.access_token == ts) = none →
      introspect_token tokens users now form_token = some (200, IntrospectResponse.inactive)) ∧
    (∀ ts token, form_token = some ts →
      tokens.find? (fun t => t.access_token == ts) = some token →
      (token.is_expired now = true ∨ token.revoked = true) →
      introspect_token tokens users now form_token = some (200, IntrospectResponse.inactive)) ∧
    (∀ ts, introspect_token (revoke_token_endpoint tokens ts) users now (some ts) =
      some (200, IntrospectResponse.inactive)) ∧
    (∀ ts token, form_token = some ts → ts ≠ "" →
      tokens.find? (fun t => t.access_token == ts) = some token →
      token.is_expired now = false → token.revoked = false →
      introspect_token tokens users now form_token =
        some (200, IntrospectResponse.active token.client_id
          (token.user_id.bind (fun uid => (getUserById users uid).map (fun u => u.username)))
          token.scope token.access_token_expires_at token.issued_at token.token_type)) := by
  refine ⟨?_, ?_, ?_, ?_, ?_⟩
  · cases form_token with
    | none => exact ⟨IntrospectResponse.inactive, rfl⟩
    | some ts =>
      by_cases hts : ts = ""
      · subst hts
        exact ⟨IntrospectResponse.inactive, rfl⟩
      · cases hf : tokens.find? (fun t => t.access_token == ts) with
        | none => exact ⟨IntrospectResponse.inactive, by simp [introspect_token, hts, hf]⟩
        | some token =>
          by_cases hact : (token.is_expired now || token.revoked) = true
          · exact ⟨IntrospectResponse.inactive, by simp [introspect_token, hts, hf, hact]⟩
          · cases huid : token.user_id with
            | none =>
              exact ⟨IntrospectResponse.active token.client_id none token.scope
                  token.access_token_expires_at token.issued_at token.token_type,
                by simp [introspect_token, hts, hf, hact, huid]⟩
            | some uid =>
              have hi := href token (List.mem_of_find?_eq_some hf)
              rw [huid] at hi
              simp only [Option.all] at hi
              obtain ⟨u, hu⟩ := Option.isSome_iff_exists.mp hi
              exact ⟨IntrospectResponse.active token.client_id (some u.username) token.scope
                  token.access_token_expires_at token.issued_at token.token_type,
                by simp [introspect_token, hts, hf, hact, huid, hu]⟩
  · intro ts hft hnone
    subst hft
    by_cases hts : ts = ""
    · simp [introspect_token, hts]
    · simp [introspect_token, hts, hnone]
  · intro ts token hft hf hcond
    subst hft
    by_cases hts : ts = ""
    · simp [introspect_token, hts]
    · have hact : (token.is_expired now || token.revoked) = true := by
        rcases hcond with h | h <;> simp [h]
      simp [introspect_token, hts, hf, hact]
  · intro ts
    by_cases hts : ts = ""
    · simp [introspect_token, hts]
    · cases hf : (revoke_token_endpoint tokens ts).find? (fun t => t.access_token == ts) with
      | none => simp [introspect_token, hts, hf]
      | some tk =>
        have hmem := List.mem_of_find?_eq_some hf
        have htkacc : tk.access_token = ts := by simpa using List.find?_some hf
        have hrv : tk.revoked = true := by
          unfold revoke_token_endpoint at hmem
          obtain ⟨a, ha, hfa⟩ := List.mem_map.mp hmem
          by_cases hc : (a.access_token == ts || a.refresh_token == some ts) = true
          · rw [if_pos hc] at hfa
            rw [← hfa]
          · rw [if_neg hc] at hfa
            exfalso
            apply hc
            have haeq : a.access_token = ts := by rw [hfa]; exact htkacc
            simp [haeq]
        simp [introspect_token, hts, hf, hrv]
  · intro ts token hft hts hf hexp hrv
    subst hft
    cases huid : token.user_id with
    | none => simp [introspect_token, hts, hf, hexp, hrv, huid]
    | some uid =>
      have hi := href token (List.mem_of_find?_eq_some hf)
      rw [huid] at hi
      simp only [Option.all] at hi
      obtain ⟨u, hu⟩ := Option.isSome_iff_exists.mp hi
      simp [introspect_token, hts, hf, hexp, hrv, huid, hu]

/-- C7 witness: introspecting the live client-credentials token answers 200
with active true and a null username. -/
theorem introspection_contract_witness :
    introspect_token [tokenOld, tokenCC] [userA] 2000 (some "at3") =
      some (200, IntrospectResponse.active "cid1" none "read" 4600 1000 "Bearer") := by
  have h := (introspection_contract [tokenOld, tokenCC] [userA] 2000 (some "at3")
    (by decide)).2.2.2.2 "at3" tokenCC rfl (by decide) (by decide) (by decide) (by decide)
  exact h

/-- C8 counterexample: the claim gates the email field on the scope token
email being present among the granted scope tokens, but the code performs a
substring test on the raw scope string: a token whose only granted scope
token is emailer has the email field included even though email is not
among its scope tokens. -/
theorem userinfo_email_scope_counterexample :
    userinfo_endpoint [userEve] tokenEmailer =
      UserinfoResult.ok
        { sub := "7", username := "eve",
          email := some "eve@acme.com", created_at := none } ∧
    ¬ ("email" ∈ pySplit tokenEmailer.scope) := by
  constructor
  · decide
  · decide

/-- C8 amended: the userinfo endpoint always includes the subject id and
username, includes the email exactly when the scope string is nonempty and
contains email as a substring (which in particular holds whenever the scope
token email is granted), and includes the created_at profile field exactly
when the scope string is nonempty and contains profile as a substring. -/
theorem userinfo_scope_gating
    (users : List User) (token : OAuth2Token) (uid : Nat) (user : User)
    (huid : token.user_id = some uid) (huser : getUserById users uid = some user) :
    userinfo_endpoint users token = UserinfoResult.ok
      { sub := toString user.id
        username := user.username
        email :=
          if token.scope ≠ "" && pyInStr "email" token.scope then some user.email else none
        created_at :=
          if token.scope ≠ "" && pyInStr "profile" token.scope then some user.created_at
          else none } := by
  simp [userinfo_endpoint, huid, huser]

/-- C8 amended witness: for the token granted email and profile, the
response carries the email and the creation timestamp. -/
theorem userinfo_scope_gating_witness :
    userinfo_endpoint [userEve] tokenEmailProfile = UserinfoResult.ok
      { sub := "7", username := "eve", email := some "eve@acme.com"
        created_at := some (some "2024-01-01T00:00:00") } := by
  have h := userinfo_scope_gating [userEve] tokenEmailProfile 7 userEve rfl (by decide)
  rw [h]
  decide

/-- C9: tenant registration creates the tenant and its owner atomically:
a 201 commits exactly the new tenant row together with its owner user,
whose role is owner and whose tenant_id is the new tenant id; a failure of
either creation step leaves the committed store unchanged and returns the
error outcome, so a committed tenant row without its owner never exists. -/
theorem tenant_registration_atomic
    (db : StoreState) (inp : TenantRegistrationInput) (tenant_id user_id : Nat)
    (fail : TxnFail) :
    (∀ db2 tenant admin_user,
      register_tenant db inp tenant_id user_id fail =
        (db2, RegisterTenantResult.created tenant admin_user) →
      admin_user.role = "owner" ∧ admin_user.tenant_id = tenant.id ∧
      tenant.slug = inp.tenant_slug ∧
      db2.tenants = db.tenants ++ [tenant] ∧ db2.users = db.users ++ [admin_user]) ∧
    (∀ db2,
      register_tenant db inp tenant_id user_id fail = (db2, RegisterTenantResult.failed) →
      db2 = db) ∧
    (fail ≠ TxnFail.noFail →
      register_tenant db inp tenant_id user_id fail = (db, RegisterTenantResult.failed)) := by
  cases fail with
  | noFail =>
    have hred : register_tenant db inp tenant_id user_id TxnFail.noFail =
        ({ tenants := db.tenants ++ [mint_tenant_row inp tenant_id],
           users := db.users ++ [mint_owner_row inp tenant_id user_id] },
         RegisterTenantResult.created (mint_tenant_row inp tenant_id)
           (mint_owner_row inp tenant_id user_id)) := rfl
    refine ⟨?_, ?_, ?_⟩
    · intro db2 tenant admin_user h
      rw [hred, Prod.mk.injEq] at h
      obtain ⟨h1, h2⟩ := h
      injection h2 with ht ha
      subst ht
      subst ha
      subst h1
      exact ⟨rfl, rfl, rfl, rfl, rfl⟩
    · intro db2 h
      rw [hred, Prod.mk.injEq] at h
      exact absurd h.2 (by simp)
    · intro hne
      exact absurd rfl hne
  | tenantInsertFails =>
    have hred : register_tenant db inp tenant_id user_id TxnFail.tenantInsertFails =
        (db, RegisterTenantResult.failed) := rfl
    refine ⟨?_, ?_, ?_⟩
    · intro db2 tenant admin_user h
      rw [hred, Prod.mk.injEq] at h
      exact absurd h.2 (by simp)
    · intro db2 h
      rw [hred, Prod.mk.injEq] at h
      exact h.1.symm
    · intro _
      exact hred
  | ownerInsertFails =>
    have hred : register_tenant db inp tenant_id user_id TxnFail.ownerInsertFails =
        (db, RegisterTenantResult.failed) := rfl
    refine ⟨?_, ?_, ?_⟩
    · intro db2 tenant admin_user h
      rw [hred, Prod.mk.injEq] at h
      exact absurd h.2 (by simp)
    · intro db2 h
      rw [hred, Prod.mk.injEq] at h
      exact h.1.symm
    · intro _
      exact hred

/-- C9 witness: registering the spec scenario tenant on an empty store
commits owner and tenant together, and a failure while inserting the owner
leaves the empty store empty. -/
theorem tenant_registration_atomic_witness :
    ((mint_owner_row regInputEx 1 2).role = "owner" ∧
      (mint_owner_row regInputEx 1 2).tenant_id = (mint_tenant_row regInputEx 1).id) ∧
    register_tenant ⟨[], []⟩ regInputEx 1 2 TxnFail.ownerInsertFails =
      (⟨[], []⟩, RegisterTenantResult.failed) := by
  have h := tenant_registration_atomic ⟨[], []⟩ regInputEx 1 2 TxnFail.noFail
  have h2 := tenant_registration_atomic ⟨[], []⟩ regInputEx 1 2 TxnFail.ownerInsertFails
  have hc := h.1 ⟨[mint_tenant_row regInputEx 1], [mint_owner_row regInputEx 1 2]⟩
    (mint_tenant_row regInputEx 1) (mint_owner_row regInputEx 1 2) rfl
  exact ⟨⟨hc.1, hc.2.1⟩, h2.2.2 (by decide)⟩

theorem find_active_slug_mem {tenants : List Tenant} {slug : String} {t : Tenant}
    (h : find_active_tenant_by_slug tenants slug = some t) :
    t.is_active = true ∧ t ∈ tenants := by
  have hp := List.find?_some h
  simp only [Bool.and_eq_true] at hp
  exact ⟨hp.2, List.mem_of_find?_eq_some h⟩

theorem find_active_id_mem {tenants : List Tenant} {i : Int} {t : Tenant}
    (h : find_active_tenant_by_id tenants i = some t) :
    t.is_active = true ∧ t ∈ tenants := by
  have hp := List.find?_some h
  simp only [Bool.and_eq_true] at hp
  exact ⟨hp.2, List.mem_of_find?_eq_some h⟩

theorem find_active_domain_mem {tenants : List Tenant} {host : String} {t : Tenant}
    (h : find_active_tenant_by_domain tenants host = some t) :
    t.is_active = true ∧ t ∈ tenants := by
  have hp := List.find?_some h
  simp only [Bool.and_eq_true] at hp
  exact ⟨hp.2, List.mem_of_find?_eq_some h⟩

theorem strategy_slug_header_spec {tenants : List Tenant} {req : HttpRequest} {t : Tenant}
    (h : strategy_slug_header tenants req = some t) :
    t.is_active = true ∧ t ∈ tenants := by
  unfold strategy_slug_header at h
  cases hh : req.header_tenant_slug with
  | none => simp only [hh] at h; exact absurd h (by simp)
  | some s =>
    simp only [hh] at h
    by_cases hs : s ≠ ""
    · rw [if_pos hs] at h
      exact find_active_slug_mem h
    · rw [if_neg hs] at h
      exact absurd h (by simp)

theorem strategy_id_header_spec {tenants : List Tenant} {req : HttpRequest} {t : Tenant}
    (h : strategy_id_header tenants req = some t) :
    t.is_active = true ∧ t ∈ tenants := by
  unfold strategy_id_header at h
  cases hh : req.header_tenant_id with
  | none => simp only [hh] at h; exact absurd h (by simp)
  | some s =>
    simp only [hh] at h
    by_cases hs : s ≠ ""
    · rw [if_pos hs] at h
      cases hp : pyInt s with
      | none => rw [hp] at h; exact absurd h (by simp)
      | some i =>
        rw [hp] at h
        exact find_active_id_mem h
    · rw [if_neg hs] at h
      exact absurd h (by simp)

theorem strategy_subdomain_spec {tenants : List Tenant} {req : HttpRequest} {t : Tenant}
    (h : strategy_subdomain tenants req = some t) :
    t.is_active = true ∧ t ∈ tenants := by
  simp only [strategy_subdomain] at h
  split at h
  · exact find_active_slug_mem h
  · exact absurd h (by simp)

theorem strategy_custom_domain_spec {tenants : List Tenant} {req : HttpRequest} {t : Tenant}
    (h : strategy_custom_domain tenants req = some t) :
    t.is_active = true ∧ t ∈ tenants :=
  find_active_domain_mem h

theorem strategy_path_spec {tenants : List Tenant} {req : HttpRequest} {t : Tenant}
    (h : strategy_path tenants req = some t) :
    t.is_active = true ∧ t ∈ tenants := by
  simp only [strategy_path] at h
  split at h
  · exact find_active_slug_mem h
  · exact absurd h (by simp)

/-- C6: identify_tenant evaluates the five strategies, slug header, numeric
id header, subdomain, custom domain, path prefix, in strict priority order
and returns the first tenant found; every returned tenant is an active row
of the store; a malformed non-numeric X-Tenant-ID header is ignored, the
outcome being the same as with no id header at all; when no strategy
matches, no tenant is returned. -/
theorem identify_tenant_strategy_chain (tenants : List Tenant) (req : HttpRequest) :
    (∀ t, strategy_slug_header tenants req = some t →
      identify_tenant tenants req = some t) ∧
    (∀ t, strategy_slug_header tenants req = none →
      strategy_id_header tenants req = some t →
      identify_tenant tenants req = some t) ∧
    (∀ t, strategy_slug_header tenants req = none →
      strategy_id_header tenants req = none →
      strategy_subdomain tenants req = some t →
      identify_tenant tenants req = some t) ∧
    (∀ t, strategy_slug_header tenants req = none →
      strategy_id_header tenants req = none →
      strategy_subdomain tenants req = none →
      strategy_custom_domain tenants req = some t →
      identify_tenant tenants req = some t) ∧
    (strategy_slug_header tenants req = none →
      strategy_id_header tenants req = none →
      strategy_subdomain tenants req = none →
      strategy_custom_domain tenants req = none →
      identify_tenant tenants req = strategy_path tenants req) ∧
    (∀ t, identify_tenant tenants req = some t → t.is_active = true ∧ t ∈ tenants) ∧
    (∀ s, req.header_tenant_id = some s → pyInt s = none →
      identify_tenant tenants req =
        identify_tenant tenants { req with header_tenant_id := none }) := by
  refine ⟨?_, ?_, ?_, ?_, ?_, ?_, ?_⟩
  · intro t h1
    simp [identify_tenant, h1]
  · intro t h1 h2
    simp [identify_tenant, h1, h2]
  · intro t h1 h2 h3
    simp [identify_tenant, h1, h2, h3]
  · intro t h1 h2 h3 h4
    simp [identify_tenant, h1, h2, h3, h4]
  · intro h1 h2 h3 h4
    simp [identify_tenant, h1, h2, h3, h4]
  · intro t ht
    simp only [identify_tenant] at ht
    cases h1 : strategy_slug_header tenants req with
    | some t1 =>
      simp only [h1, Option.some.injEq] at ht
      exact ht ▸ strategy_slug_header_spec h1
    | none =>
      simp only [h1] at ht
      cases h2 : strategy_id_header tenants req with
      | some t2 =>
        simp only [h2, Option.some.injEq] at ht
        exact ht ▸ strategy_id_header_spec h2
      | none =>
        simp only [h2] at ht
        cases h3 : strategy_subdomain tenants req with
        | some t3 =>
          simp only [h3, Option.some.injEq] at ht
          exact ht ▸ strategy_subdomain_spec h3
        | none =>
          simp only [h3] at ht
          cases h4 : strategy_custom_domain tenants req with
          | some t4 =>
            simp only [h4, Option.some.injEq] at ht
            exact ht ▸ strategy_custom_domain_spec h4
          | none =>
            simp only [h4] at ht
            exact strategy_path_spec ht
  · intro s hs hparse
    have hid : strategy_id_header tenants req = none := by
      unfold strategy_id_header
      simp only [hs]
      by_cases hempty : s ≠ ""
      · rw [if_pos hempty, hparse]
      · rw [if_neg hempty]
    unfold identify_tenant
    rw [hid]
    rfl

/-- C6 witness: with a malformed id header the request falls through to the
subdomain strategy, which finds the active acme tenant; the outcome equals
the outcome with no id header. -/
theorem identify_tenant_strategy_chain_witness :
    identify_tenant [tenantA] reqMalformedId =
      identify_tenant [tenantA] { reqMalformedId with header_tenant_id := none } ∧
    tenantA.is_active = true ∧ tenantA ∈ [tenantA] := by
  have h := identify_tenant_strategy_chain [tenantA] reqMalformedId
  refine ⟨h.2.2.2.2.2.2 "abc" rfl (by decide), ?_, ?_⟩
  · exact (h.2.2.2.2.2.1 tenantA (by decide)).1
  · exact (h.2.2.2.2.2.1 tenantA (by decide)).2

end Srv
